import Mathlib

/-!
Verification of the `kuna` Python client library (src/kuna/kuna.py) against its
natural-language specification.  The library builds signed HTTP requests for a
cryptocurrency-exchange REST API: the core is an HMAC-SHA384 signing routine,
a request dispatcher, and a catalogue of endpoint methods.

This file shallowly embeds the relevant parts of the source:
* byte-level SHA-384 and HMAC-SHA384 (modelling Python's `hashlib.sha384` /
  `hmac.new(..., hashlib.sha384)`), executable over `List Nat` bytes;
* ASCII encoding (`str.encode("ascii")`), JSON serialization (`json.dumps`
  with its default separators), JSON parsing (`json.loads`), and URL query
  encoding (`urllib.parse.urlencode` / `quote_plus`);
* the `KunaAPI` class state, `_check_keys`, `_generate_sign`, `_request`,
  the error type `APIError`, and the endpoint methods the claims mention.

Python exceptions are modelled by an inductive `PyError` carrying the
exception class name, and fallible code returns `Except PyError _`.
Machine 64-bit words are `Nat` reduced modulo `2 ^ 64`.
-/

set_option maxRecDepth 8000

namespace Kuna

/-! ### 64-bit word arithmetic (Python ints restricted to the SHA-512 word size) -/

/-- Reduce to a 64-bit word. -/
def w64 (n : Nat) : Nat := n % 18446744073709551616

/-- 64-bit modular addition. -/
def wadd (a b : Nat) : Nat := w64 (a + b)

/-- Rotate a 64-bit word right by `n` bits. -/
def rotr (n x : Nat) : Nat :=
  w64 (Nat.lor (Nat.shiftRight x n) (Nat.shiftLeft x (64 - n)))

/-- Logical shift right. -/
def shr (n x : Nat) : Nat := Nat.shiftRight x n

/-- Bitwise complement of a 64-bit word. -/
def wnot (a : Nat) : Nat := 18446744073709551615 - a

/-! ### SHA-384 (FIPS 180-4), byte-level, as used by `hashlib.sha384` -/

/-- The 80 SHA-512 round constants. -/
def sha512K : List Nat := [
  4794697086780616226, 8158064640168781261, 13096744586834688815, 16840607885511220156,
  4131703408338449720, 6480981068601479193, 10538285296894168987, 12329834152419229976,
  15566598209576043074, 1334009975649890238, 2608012711638119052, 6128411473006802146,
  8268148722764581231, 9286055187155687089, 11230858885718282805, 13951009754708518548,
  16472876342353939154, 17275323862435702243, 1135362057144423861, 2597628984639134821,
  3308224258029322869, 5365058923640841347, 6679025012923562964, 8573033837759648693,
  10970295158949994411, 12119686244451234320, 12683024718118986047, 13788192230050041572,
  14330467153632333762, 15395433587784984357, 489312712824947311, 1452737877330783856,
  2861767655752347644, 3322285676063803686, 5560940570517711597, 5996557281743188959,
  7280758554555802590, 8532644243296465576, 9350256976987008742, 10552545826968843579,
  11727347734174303076, 12113106623233404929, 14000437183269869457, 14369950271660146224,
  15101387698204529176, 15463397548674623760, 17586052441742319658, 1182934255886127544,
  1847814050463011016, 2177327727835720531, 2830643537854262169, 3796741975233480872,
  4115178125766777443, 5681478168544905931, 6601373596472566643, 7507060721942968483,
  8399075790359081724, 8693463985226723168, 9568029438360202098, 10144078919501101548,
  10430055236837252648, 11840083180663258601, 13761210420658862357, 14299343276471374635,
  14566680578165727644, 15097957966210449927, 16922976911328602910, 17689382322260857208,
  500013540394364858, 748580250866718886, 1242879168328830382, 1977374033974150939,
  2944078676154940804, 3659926193048069267, 4368137639120453308, 4836135668995329356,
  5532061633213252278, 6448918945643986474, 6902733635092675308, 7801388544844847127]

/-- The eight chaining variables of the SHA-512 family. -/
structure Hash8 where
  a : Nat
  b : Nat
  c : Nat
  d : Nat
  e : Nat
  f : Nat
  g : Nat
  h : Nat
deriving DecidableEq

/-- SHA-384 initial hash value. -/
def initH384 : Hash8 :=
  ⟨14680500436340154072, 7105036623409894663, 10473403895298186519, 1526699215303891257,
   7436329637833083697, 10282925794625328401, 15784041429090275239, 5167115440072839076⟩

def ch (x y z : Nat) : Nat := Nat.xor (Nat.land x y) (Nat.land (wnot x) z)

def maj (x y z : Nat) : Nat :=
  Nat.xor (Nat.xor (Nat.land x y) (Nat.land x z)) (Nat.land y z)

def bigSigma0 (x : Nat) : Nat := Nat.xor (Nat.xor (rotr 28 x) (rotr 34 x)) (rotr 39 x)

def bigSigma1 (x : Nat) : Nat := Nat.xor (Nat.xor (rotr 14 x) (rotr 18 x)) (rotr 41 x)

def smallSigma0 (x : Nat) : Nat := Nat.xor (Nat.xor (rotr 1 x) (rotr 8 x)) (shr 7 x)

def smallSigma1 (x : Nat) : Nat := Nat.xor (Nat.xor (rotr 19 x) (rotr 61 x)) (shr 6 x)

/-- Extend a 16-word message block by `n` further schedule words. -/
def extendW (ws : List Nat) : Nat → List Nat
  | 0 => ws
  | Nat.succ n =>
      let i := ws.length
      let w := wadd (smallSigma1 (ws.getD (i - 2) 0))
        (wadd (ws.getD (i - 7) 0)
          (wadd (smallSigma0 (ws.getD (i - 15) 0)) (ws.getD (i - 16) 0)))
      extendW (ws ++ [w]) n

/-- One SHA-512 compression round. -/
def sha512Round (st : Hash8) (k w : Nat) : Hash8 :=
  let t1 := wadd st.h (wadd (bigSigma1 st.e) (wadd (ch st.e st.f st.g) (wadd k w)))
  let t2 := wadd (bigSigma0 st.a) (maj st.a st.b st.c)
  ⟨wadd t1 t2, st.a, st.b, st.c, wadd st.d t1, st.e, st.f, st.g⟩

/-- Compress one 16-word block into the chaining state. -/
def compressBlock (h : Hash8) (block : List Nat) : Hash8 :=
  let ws := extendW block 64
  let fin := (List.zip sha512K ws).foldl (fun st kw => sha512Round st kw.1 kw.2) h
  ⟨wadd h.a fin.a, wadd h.b fin.b, wadd h.c fin.c, wadd h.d fin.d,
   wadd h.e fin.e, wadd h.f fin.f, wadd h.g fin.g, wadd h.h fin.h⟩

/-- Big-endian byte expansion of `n` into exactly `k` bytes. -/
def beBytes : Nat → Nat → List Nat
  | 0, _ => []
  | Nat.succ k, n => beBytes k (n / 256) ++ [n % 256]

/-- Group a byte list into big-endian 64-bit words (8 bytes each). -/
def bytesToWords : List Nat → List Nat
  | b0 :: b1 :: b2 :: b3 :: b4 :: b5 :: b6 :: b7 :: rest =>
      (((((((b0 * 256 + b1) * 256 + b2) * 256 + b3) * 256 + b4) * 256 + b5) * 256
        + b6) * 256 + b7) :: bytesToWords rest
  | _ => []

/-- SHA-512 padding: append `0x80`, zeros, and the 128-bit big-endian bit length,
    reaching a multiple of 128 bytes. -/
def padMessage (msg : List Nat) : List Nat :=
  let len := msg.length
  let zeros := (128 - ((len + 17) % 128)) % 128
  msg ++ [128] ++ List.replicate zeros 0 ++ beBytes 16 (8 * len)

/-- Fold the compression function over successive 16-word blocks
    (structural recursion on a fuel that bounds the number of blocks). -/
def sha384BlocksAux (fuel : Nat) (h : Hash8) (ws : List Nat) : Hash8 :=
  match fuel, ws with
  | _, [] => h
  | 0, _ => h
  | Nat.succ f, w :: rest =>
      sha384BlocksAux f (compressBlock h (List.take 16 (w :: rest))) (List.drop 16 (w :: rest))

def sha384Blocks (h : Hash8) (ws : List Nat) : Hash8 := sha384BlocksAux ws.length h ws

/-- SHA-384 digest of a byte string: 48 bytes (the first six chaining words). -/
def sha384Bytes (msg : List Nat) : List Nat :=
  let h := sha384Blocks initH384 (bytesToWords (padMessage msg))
  beBytes 8 h.a ++ beBytes 8 h.b ++ beBytes 8 h.c ++ beBytes 8 h.d ++
    beBytes 8 h.e ++ beBytes 8 h.f

/-- HMAC-SHA384 over byte strings (block size 128), as `hmac.new(key, msg, hashlib.sha384)`. -/
def hmacSha384 (key msg : List Nat) : List Nat :=
  let keyA := if 128 < key.length then sha384Bytes key else key
  let key0 := keyA ++ List.replicate (128 - keyA.length) 0
  let ipad := key0.map (fun b => Nat.xor b 54)
  let opad := key0.map (fun b => Nat.xor b 92)
  sha384Bytes (opad ++ sha384Bytes (ipad ++ msg))

/-! ### Hex digest (`HMAC.hexdigest`), ASCII encoding (`str.encode("ascii")`) -/

/-- Lowercase hex digit. -/
def hexDigitChar (n : Nat) : Char :=
  if n < 10 then Char.ofNat (48 + n) else Char.ofNat (87 + n)

/-- Two lowercase hex characters of one byte. -/
def hexByteChars (b : Nat) : List Char := [hexDigitChar (b / 16 % 16), hexDigitChar (b % 16)]

/-- Lowercase hex string of a byte list, as Python's `.hexdigest()`. -/
def hexDigest (bytes : List Nat) : String := ⟨bytes.foldr (fun b acc => hexByteChars b ++ acc) []⟩

/-! ### Python exceptions

Each raised exception is modelled by a `PyError` value; `PyError.pyClass` is
the Python class name of the exception, the name an `except` clause would have
to match. -/

/-- A JSON value (the result of `json.loads`, and the payload of request bodies). -/
inductive Json where
  | null
  | bool (b : Bool)
  | str (s : String)
  | num (n : Int)
  | arr (items : List Json)
  | obj (fields : List (String × Json))

/-- The `message` argument `APIError.__init__` passes to `Exception.__init__`:
    either a value extracted from a parsed JSON error body, or a string. -/
inductive ErrMsg where
  | ofJson (j : Json)
  | ofStr (s : String)

/-- The exceptions the embedded code can raise.  `apiError` is the library's own
    `APIError`; the others are Python built-ins raised by the library's code. -/
inductive PyError where
  | apiError (msg : ErrMsg)
  | attributeError (msg : String)
  | typeError (msg : String)
  | unicodeEncodeError
  | jsonDecodeError
  | notImplementedError

/-- The Python class name of an exception. -/
def PyError.pyClass : PyError → String
  | .apiError _ => "APIError"
  | .attributeError _ => "AttributeError"
  | .typeError _ => "TypeError"
  | .unicodeEncodeError => "UnicodeEncodeError"
  | .jsonDecodeError => "JSONDecodeError"
  | .notImplementedError => "NotImplementedError"

/-! ### `str.encode("ascii")` -/

/-- Whether every character of `s` is ASCII. -/
def allAscii (s : String) : Bool := s.data.all (fun c => c.toNat < 128)

/-- `s.encode("ascii")`: the ASCII bytes of `s`, or `UnicodeEncodeError` if any
    character is outside ASCII. -/
def asciiEncode (s : String) : Except PyError (List Nat) :=
  if allAscii s then Except.ok (s.data.map Char.toNat)
  else Except.error PyError.unicodeEncodeError

/-! ### `json.dumps` (default separators) -/

/-- One character of a JSON string literal under `json.dumps` defaults
    (`ensure_ascii=True`): the short escapes, `\uXXXX` for other control or
    non-ASCII characters (astral code points become surrogate pairs), the
    character itself otherwise. -/
def jsonEscapeChar (c : Char) : List Char :=
  let n := c.toNat
  if n = 34 then [Char.ofNat 92, Char.ofNat 34]
  else if n = 92 then [Char.ofNat 92, Char.ofNat 92]
  else if n = 10 then [Char.ofNat 92, Char.ofNat 110]
  else if n = 13 then [Char.ofNat 92, Char.ofNat 114]
  else if n = 9 then [Char.ofNat 92, Char.ofNat 116]
  else if n = 8 then [Char.ofNat 92, Char.ofNat 98]
  else if n = 12 then [Char.ofNat 92, Char.ofNat 102]
  else if n < 32 ∨ 128 ≤ n then
    if n < 65536 then uEscape n
    else uEscape (55296 + (n - 65536) / 1024) ++ uEscape (56320 + (n - 65536) % 1024)
  else [c]
where
  uEscape (m : Nat) : List Char :=
    [Char.ofNat 92, Char.ofNat 117,
     hexDigitChar (m / 4096 % 16), hexDigitChar (m / 256 % 16),
     hexDigitChar (m / 16 % 16), hexDigitChar (m % 16)]

/-- A JSON string literal: double quotes around the escaped characters. -/
def jsonQuote (s : String) : String :=
  ⟨Char.ofNat 34 :: s.data.foldr (fun c acc => jsonEscapeChar c ++ acc) [Char.ofNat 34]⟩

mutual
/-- `json.dumps(value)` with the source's default arguments: item separator
    comma-space, key separator colon-space, insertion order preserved. -/
def jsonDumps : Json → String
  | .null => "null"
  | .bool true => "true"
  | .bool false => "false"
  | .str s => jsonQuote s
  | .num n => toString n
  | .arr items => "[" ++ String.intercalate ", " (jsonDumpsItems items) ++ "]"
  | .obj fields => "\x7b" ++ String.intercalate ", " (jsonDumpsFields fields) ++ "\x7d"

def jsonDumpsItems : List Json → List String
  | [] => []
  | j :: rest => jsonDumps j :: jsonDumpsItems rest

def jsonDumpsFields : List (String × Json) → List String
  | [] => []
  | (k, v) :: rest => (jsonQuote k ++ ": " ++ jsonDumps v) :: jsonDumpsFields rest
end

/-! ### `urllib.parse.urlencode` (via `quote_plus`) -/

/-- Uppercase hex digit. -/
def upHexDigit (n : Nat) : Char :=
  if n < 10 then Char.ofNat (48 + n) else Char.ofNat (55 + n)

/-- UTF-8 bytes of one character. -/
def charUtf8 (c : Char) : List Nat :=
  let n := c.toNat
  if n < 128 then [n]
  else if n < 2048 then [192 + n / 64, 128 + n % 64]
  else if n < 65536 then [224 + n / 4096, 128 + n / 64 % 64, 128 + n % 64]
  else [240 + n / 262144, 128 + n / 4096 % 64, 128 + n / 64 % 64, 128 + n % 64]

/-- One byte under `quote_plus` with `safe=""`: alphanumerics and `_.-~` stand
    for themselves, a space becomes `+`, anything else `%XX` (uppercase hex). -/
def quotePlusByte (b : Nat) : List Char :=
  if (48 ≤ b ∧ b ≤ 57) ∨ (65 ≤ b ∧ b ≤ 90) ∨ (97 ≤ b ∧ b ≤ 122) ∨
      b = 95 ∨ b = 46 ∨ b = 45 ∨ b = 126 then [Char.ofNat b]
  else if b = 32 then [Char.ofNat 43]
  else [Char.ofNat 37, upHexDigit (b / 16), upHexDigit (b % 16)]

/-- `urllib.parse.quote_plus(s)` (over the UTF-8 bytes of `s`). -/
def quotePlus (s : String) : String :=
  ⟨(s.data.foldr (fun c acc => charUtf8 c ++ acc) []).foldr
    (fun b acc => quotePlusByte b ++ acc) []⟩

/-- `urllib.parse.urlencode` on a list of key/value pairs (Python dicts keep
    insertion order). -/
def urlencode (args : List (String × String)) : String :=
  String.intercalate "&" (args.map (fun kv => quotePlus kv.1 ++ "=" ++ quotePlus kv.2))

/-! ### `json.loads`

A recursive-descent parser for the JSON grammar as `json.loads` reads it:
strings with the standard escapes, objects, arrays, integers, `true`, `false`,
`null`; any failure raises `JSONDecodeError`.  Two simplifications, neither
touched by any claim: non-integer numbers are rejected rather than parsed as
floats, and a lone `\uXXXX` surrogate maps through `Char.ofNat`'s default
instead of Python's surrogate char. -/

/-- Skip JSON whitespace. -/
def skipWs : List Char → List Char
  | [] => []
  | c :: rest =>
      if c.toNat = 32 ∨ c.toNat = 9 ∨ c.toNat = 10 ∨ c.toNat = 13 then skipWs rest
      else c :: rest

/-- Value of a hex digit. -/
def hexVal (c : Char) : Option Nat :=
  let n := c.toNat
  if 48 ≤ n ∧ n ≤ 57 then some (n - 48)
  else if 97 ≤ n ∧ n ≤ 102 then some (n - 87)
  else if 65 ≤ n ∧ n ≤ 70 then some (n - 55)
  else none

/-- The character a short JSON escape stands for. -/
def unescapeChar (c : Char) : Option Char :=
  let n := c.toNat
  if n = 34 ∨ n = 92 ∨ n = 47 then some c
  else if n = 98 then some (Char.ofNat 8)
  else if n = 102 then some (Char.ofNat 12)
  else if n = 110 then some (Char.ofNat 10)
  else if n = 114 then some (Char.ofNat 13)
  else if n = 116 then some (Char.ofNat 9)
  else none

/-- Parse the body of a JSON string literal (after the opening quote), returning
    the string and the input past the closing quote. -/
def parseStringBody : List Char → List Char → Except PyError (String × List Char)
  | [], _ => Except.error PyError.jsonDecodeError
  | c :: rest, acc =>
    if c.toNat = 34 then Except.ok (⟨acc.reverse⟩, rest)
    else if c.toNat = 92 then
      match rest with
      | [] => Except.error PyError.jsonDecodeError
      | e :: rest2 =>
        if e.toNat = 117 then
          match rest2 with
          | h1 :: h2 :: h3 :: h4 :: rest3 =>
            match hexVal h1, hexVal h2, hexVal h3, hexVal h4 with
            | some a, some b, some c2, some d =>
                parseStringBody rest3 (Char.ofNat (((a * 16 + b) * 16 + c2) * 16 + d) :: acc)
            | _, _, _, _ => Except.error PyError.jsonDecodeError
          | _ => Except.error PyError.jsonDecodeError
        else
          match unescapeChar e with
          | some ec => parseStringBody rest2 (ec :: acc)
          | none => Except.error PyError.jsonDecodeError
    else parseStringBody rest (c :: acc)

/-- Consume decimal digits; returns the value, the rest, and whether any digit
    was seen. -/
def parseDigits : List Char → Nat → Bool → Nat × List Char × Bool
  | [], acc, seen => (acc, [], seen)
  | c :: rest, acc, seen =>
    if 48 ≤ c.toNat ∧ c.toNat ≤ 57 then parseDigits rest (acc * 10 + (c.toNat - 48)) true
    else (acc, c :: rest, seen)

mutual
/-- Parse one JSON value; the fuel strictly decreases on every recursive call
    and `2 * input length + 8` always suffices. -/
def parseVal : Nat → List Char → Except PyError (Json × List Char)
  | 0, _ => Except.error PyError.jsonDecodeError
  | Nat.succ f, cs =>
    match skipWs cs with
    | [] => Except.error PyError.jsonDecodeError
    | c :: rest =>
      if c.toNat = 34 then
        match parseStringBody rest [] with
        | Except.ok (s, r) => Except.ok (Json.str s, r)
        | Except.error e => Except.error e
      else if c.toNat = 123 then parseObjItems f (skipWs rest) []
      else if c.toNat = 91 then parseArrItems f (skipWs rest) []
      else if c.toNat = 45 then
        match parseDigits rest 0 false with
        | (n, r, true) => Except.ok (Json.num (-(Int.ofNat n)), r)
        | _ => Except.error PyError.jsonDecodeError
      else if 48 ≤ c.toNat ∧ c.toNat ≤ 57 then
        match parseDigits (c :: rest) 0 false with
        | (n, r, _) => Except.ok (Json.num (Int.ofNat n), r)
      else
        match c :: rest with
        | 'n' :: 'u' :: 'l' :: 'l' :: r => Except.ok (Json.null, r)
        | 't' :: 'r' :: 'u' :: 'e' :: r => Except.ok (Json.bool true, r)
        | 'f' :: 'a' :: 'l' :: 's' :: 'e' :: r => Except.ok (Json.bool false, r)
        | _ => Except.error PyError.jsonDecodeError

/-- Parse object members, entered just past a brace or a comma. -/
def parseObjItems : Nat → List Char → List (String × Json) →
    Except PyError (Json × List Char)
  | 0, _, _ => Except.error PyError.jsonDecodeError
  | Nat.succ f, cs, acc =>
    match cs with
    | [] => Except.error PyError.jsonDecodeError
    | c :: rest =>
      if c.toNat = 125 ∧ acc.isEmpty then Except.ok (Json.obj acc.reverse, rest)
      else if c.toNat = 34 then
        match parseStringBody rest [] with
        | Except.error e => Except.error e
        | Except.ok (k, r1) =>
          match skipWs r1 with
          | [] => Except.error PyError.jsonDecodeError
          | colon :: r2 =>
            if colon.toNat = 58 then
              match parseVal f r2 with
              | Except.error e => Except.error e
              | Except.ok (v, r3) =>
                match skipWs r3 with
                | [] => Except.error PyError.jsonDecodeError
                | d :: r4 =>
                  if d.toNat = 44 then parseObjItems f (skipWs r4) ((k, v) :: acc)
                  else if d.toNat = 125 then Except.ok (Json.obj ((k, v) :: acc).reverse, r4)
                  else Except.error PyError.jsonDecodeError
            else Except.error PyError.jsonDecodeError
      else Except.error PyError.jsonDecodeError

/-- Parse array elements, entered just past a bracket or a comma. -/
def parseArrItems : Nat → List Char → List Json → Except PyError (Json × List Char)
  | 0, _, _ => Except.error PyError.jsonDecodeError
  | Nat.succ f, cs, acc =>
    match cs with
    | [] => Except.error PyError.jsonDecodeError
    | c :: rest =>
      if c.toNat = 93 ∧ acc.isEmpty then Except.ok (Json.arr acc.reverse, rest)
      else
        match parseVal f (c :: rest) with
        | Except.error e => Except.error e
        | Except.ok (v, r1) =>
          match skipWs r1 with
          | [] => Except.error PyError.jsonDecodeError
          | d :: r2 =>
            if d.toNat = 44 then parseArrItems f (skipWs r2) (v :: acc)
            else if d.toNat = 93 then Except.ok (Json.arr (v :: acc).reverse, r2)
            else Except.error PyError.jsonDecodeError
end

/-- `json.loads(s)` / `json.load` on a document with content `s`: parse one
    value and require only whitespace after it. -/
def jsonLoads (s : String) : Except PyError Json :=
  match parseVal (2 * s.length + 8) s.data with
  | Except.error e => Except.error e
  | Except.ok (j, rest) =>
      if (skipWs rest).isEmpty then Except.ok j else Except.error PyError.jsonDecodeError

/-- Python `dict` membership/lookup on a parsed JSON object: `json.loads` keeps
    the last value of a repeated key, so the scan runs from the end. -/
def dictGet (fields : List (String × Json)) (key : String) : Option Json :=
  (fields.reverse.find? (fun kv => kv.1 == key)).map (fun kv => kv.2)

mutual
/-- Python `repr` of a value produced by `json.loads` (dicts and lists with
    single-quoted strings, `True`/`False`/`None`).  Only the `else` branch of
    `APIError.__init__` uses it; no claim depends on its exact text, and string
    escaping inside `repr` is not modelled. -/
def pyRepr : Json → String
  | .null => "None"
  | .bool true => "True"
  | .bool false => "False"
  | .str s => ⟨Char.ofNat 39 :: (s.data ++ [Char.ofNat 39])⟩
  | .num n => toString n
  | .arr items => "[" ++ String.intercalate ", " (pyReprItems items) ++ "]"
  | .obj fields => "\x7b" ++ String.intercalate ", " (pyReprFields fields) ++ "\x7d"

def pyReprItems : List Json → List String
  | [] => []
  | j :: rest => pyRepr j :: pyReprItems rest

def pyReprFields : List (String × Json) → List String
  | [] => []
  | (k, v) :: rest =>
      (pyRepr (Json.str k) ++ ": " ++ pyRepr v) :: pyReprFields rest
end

/-! ### `APIError` -/

/-- What `APIError(result)` is called with in the source: an `HTTPError` (whose
    body `json.load` then reads) or a plain string. -/
inductive APIErrorArg where
  | httpErr (body : String)
  | ofStr (s : String)

/-- `APIError.__init__`: an `HTTPError` argument is replaced by `json.load` of
    its body — a step that itself raises `JSONDecodeError` when the body is not
    JSON — then the message is the `messages` field of a dict, the string
    itself, or `repr` of the value. -/
def mkAPIError : APIErrorArg → Except PyError PyError
  | .ofStr s => Except.ok (PyError.apiError (ErrMsg.ofStr s))
  | .httpErr body => do
      let j ← jsonLoads body
      match j with
      | Json.obj fields =>
          match dictGet fields "messages" with
          | some m => Except.ok (PyError.apiError (ErrMsg.ofJson m))
          | none => Except.ok (PyError.apiError (ErrMsg.ofStr (pyRepr (Json.obj fields))))
      | Json.str s => Except.ok (PyError.apiError (ErrMsg.ofStr s))
      | other => Except.ok (PyError.apiError (ErrMsg.ofStr (pyRepr other)))

/-! ### The `KunaAPI` class -/

/-- The instance attributes set by `KunaAPI.__init__`. -/
structure KunaState where
  public_key : Option String
  private_key : Option String

/-- `self.endpoint`. -/
def apiEndpoint : String := "https://api.kuna.io"

/-- `self.prefix` (the attribute is called `prefix` in the source; that word is
    reserved in Lean, hence the different name here). -/
def versionPath : String := "/v3"

/-- The module-level `KEYS_NEED_MESSAGE` string. -/
def KEYS_NEED_MESSAGE : String :=
  "\n    API initialized without public or private key. Only Public API is available.\n    Get keys from \"https://kuna.io/settings/api_tokens\".\n    "

/-- The module-level `DEFAULT_HEADERS` dict (header values are `Option` because
    the source can place `None` into the headers). -/
def DEFAULT_HEADERS : List (String × Option String) :=
  [("accept", some "application/json"), ("content-type", some "application/json"),
   ("user-agent", some "python-kuna/0.4.0")]

/-- `KunaAPI._check_keys`.  When a key is missing and `error=True` the source
    evaluates `APIError(KEYS_NEED_MESSAGE)` as a bare expression statement: the
    exception object is constructed but there is no `raise`, so the function
    always returns normally (with `error=False` it emits a warning instead). -/
def check_keys (st : KunaState) (error : Bool) : Except PyError Unit :=
  if st.public_key = none ∨ st.private_key = none then
    if error then
      let _unraised := PyError.apiError (ErrMsg.ofStr KEYS_NEED_MESSAGE)
      Except.ok ()
    else
      Except.ok ()
  else Except.ok ()

/-- The message of the `AttributeError` Python raises for `None.encode('ascii')`. -/
def noneEncodeMsg : String := "'NoneType' object has no attribute 'encode'"

/-- The message of the `AttributeError` Python raises for `None.lower()`. -/
def noneLowerMsg : String := "'NoneType' object has no attribute 'lower'"

/-- `KunaAPI._generate_sign(uri, body, nonce)`: concatenate `uri + nonce + body`
    (f-string, no separators), encode the payload then the private key as ASCII
    (the payload is encoded first, and a `None` private key makes the attribute
    access `.encode` raise `AttributeError`), and return the lowercase hex
    HMAC-SHA384 digest. -/
def generate_sign (st : KunaState) (uri body nonce : String) : Except PyError String := do
  let payload := uri ++ nonce ++ body
  let payloadBin ← asciiEncode payload
  let key ← match st.private_key with
    | none => Except.error (PyError.attributeError noneEncodeMsg)
    | some k => Except.ok k
  let keyBin ← asciiEncode key
  Except.ok (hexDigest (hmacSha384 keyBin payloadBin))

/-- The request `_request` hands to `urlopen`: a returned value of this type
    means network I/O is attempted. -/
structure HttpRequest where
  method : String
  url : String
  headers : List (String × Option String)
  body : String
deriving DecidableEq

/-- `KunaAPI._request(path, args, body, is_user_method)` up to the `urlopen`
    call: build the URL (appending the url-encoded `args` when non-empty),
    serialize the body, and for a user method run `_check_keys(error=True)`,
    then set the `kun-nonce` / `kun-apikey` / `kun-signature` headers.  The
    wall-clock nonce `str(int(time.time() * 1000))` is supplied by the caller
    as the `nonce` parameter. -/
def request (st : KunaState) (nonce : String) (path : String)
    (args : List (String × String)) (body : Json) (is_user_method : Bool) :
    Except PyError HttpRequest := do
  let path := if args.isEmpty then path else path ++ "?" ++ urlencode args
  let uri := versionPath ++ path
  let url := apiEndpoint ++ uri
  let bodyStr := jsonDumps body
  if is_user_method then do
    let _ ← check_keys st true
    let sign ← generate_sign st uri bodyStr nonce
    let headers := DEFAULT_HEADERS ++
      [("kun-nonce", some nonce), ("kun-apikey", st.public_key), ("kun-signature", some sign)]
    Except.ok ⟨"POST", url, headers, bodyStr⟩
  else
    Except.ok ⟨"GET", url, DEFAULT_HEADERS, bodyStr⟩

/-- What the HTTP exchange produced, as seen by `_request`'s `try` block. -/
inductive HttpOutcome where
  | success (body : String)
  | httpError (code : Nat) (body : String)

/-- The `try/except` tail of `KunaAPI._request`: on success `json.load` the
    response; on `HTTPError` evaluate `raise APIError(err)` — where the
    `APIError` constructor itself runs `json.load` on the error body and so can
    raise `JSONDecodeError` instead of the `APIError`. -/
def handleResponse : HttpOutcome → Except PyError Json
  | .success body => jsonLoads body
  | .httpError _ body =>
      match mkAPIError (APIErrorArg.httpErr body) with
      | Except.ok e => Except.error e
      | Except.error e2 => Except.error e2

/-! ### Endpoint methods (public API) -/

/-- `KunaAPI.timestamp`. -/
def timestamp (st : KunaState) (nonce : String) : Except PyError HttpRequest :=
  request st nonce "/timestamp" [] (Json.obj []) false

/-- The argument of `KunaAPI.tickers`: a string, a list, or the default `None`. -/
inductive SymbolsArg where
  | ofStr (s : String)
  | ofList (l : List String)
  | noneArg

/-- `KunaAPI.tickers(symbols=None)`: a string is passed through, a list is
    comma-joined, anything else (the default `None`) becomes `ALL`. -/
def tickers (st : KunaState) (nonce : String) (symbols : SymbolsArg) :
    Except PyError HttpRequest :=
  let args := match symbols with
    | .ofStr s => [("symbols", s)]
    | .ofList l => [("symbols", String.intercalate "," l)]
    | .noneArg => [("symbols", "ALL")]
  request st nonce "/tickers" args (Json.obj []) false

/-- `KunaAPI.book(market)`. -/
def book (st : KunaState) (nonce : String) (market : String) :
    Except PyError HttpRequest :=
  request st nonce ("/book/" ++ market) [] (Json.obj []) false

/-- `KunaAPI.history`: `raise NotImplementedError`. -/
def history (_st : KunaState) : Except PyError HttpRequest :=
  Except.error PyError.notImplementedError

/-! ### Endpoint methods (private API) -/

/-- `KunaAPI.auth_me`. -/
def auth_me (st : KunaState) (nonce : String) : Except PyError HttpRequest :=
  request st nonce "/auth/me" [] (Json.obj []) true

/-- Python `str.lower` on the ASCII range (non-ASCII letters are left alone;
    every comparison below is against ASCII-only lists, where Python's full
    Unicode lowercasing agrees on membership failure). -/
def strLower (s : String) : String :=
  ⟨s.data.map (fun c => if 65 ≤ c.toNat ∧ c.toNat ≤ 90 then Char.ofNat (c.toNat + 32) else c)⟩

/-- The `available_types` tuple of `auth_w_order_submit`. -/
def available_types : List String := ["limit", "market", "market_by_quote", "limit_stop_loss"]

/-- Python's `repr` of the `available_types` tuple, as the f-string embeds it. -/
def availableTypesRepr : String :=
  "('limit', 'market', 'market_by_quote', 'limit_stop_loss')"

/-- The message of the `APIError` raised for an order type outside the tuple. -/
def orderTypeErrorMsg (type : String) : String :=
  "\x22" ++ type ++ "\x22 is not one of available types " ++ availableTypesRepr

/-- `KunaAPI.auth_w_order_submit(symbol, type, amount, price, stop_price)`.
    The numeric arguments are abstracted as JSON values (no claim computes with
    floats); the request body embeds them verbatim, `None` defaults included. -/
def auth_w_order_submit (st : KunaState) (nonce : String) (symbol type : String)
    (amount price stop_price : Json) : Except PyError HttpRequest :=
  if (available_types.contains (strLower type)) = false then
    Except.error (PyError.apiError (ErrMsg.ofStr (orderTypeErrorMsg type)))
  else
    request st nonce "/auth/w/order/submit" []
      (Json.obj [("symbol", Json.str symbol), ("type", Json.str type),
        ("amount", amount), ("price", price), ("stop_price", stop_price)]) true

/-- The message of the `APIError` raised by `assets_history` for a bad type. -/
def assetsHistoryTypeMsg : String := "type must by 'withdraws', 'deposits' or None"

/-- `KunaAPI.assets_history(type=None)`.  The first statement evaluates
    `type.lower()`: with the default `None` this raises `AttributeError`
    before the membership test; a string outside the allowed list raises
    `APIError`; otherwise the (necessarily non-empty, hence truthy) type is
    appended to the path. -/
def assets_history (st : KunaState) (nonce : String) (type : Option String) :
    Except PyError HttpRequest := do
  let t ← match type with
    | none => Except.error (PyError.attributeError noneLowerMsg)
    | some t => Except.ok t
  if ((["withdraws", "deposits"] : List String).contains (strLower t)) = false then
    Except.error (PyError.apiError (ErrMsg.ofStr assetsHistoryTypeMsg))
  else if t = "" then
    request st nonce "/auth/assets-history" [] (Json.obj []) true
  else
    request st nonce ("/auth/assets-history/" ++ t) [] (Json.obj []) true

/-! ### Deprecated alias methods

Each alias emits a `DeprecationWarning`, then calls a current method as a bare
expression statement — the alias never returns the canonical method's result,
so a successful alias call returns Python `None`. -/

/-- A Python-level return value: `None`, or the parsed JSON the server returns
    for a dispatched request. -/
inductive RetVal where
  | pyNone
  | response (req : HttpRequest)
deriving DecidableEq

/-- The value a direct call of `timestamp` returns (the server response for the
    request it dispatches). -/
def timestampValue (st : KunaState) (nonce : String) : Except PyError RetVal :=
  (timestamp st nonce).map RetVal.response

/-- `KunaAPI.get_server_time`: warns, evaluates `self.timestamp()` and discards
    the result; the alias itself returns `None`. -/
def get_server_time (st : KunaState) (nonce : String) : Except PyError RetVal :=
  (timestamp st nonce).map (fun _ => RetVal.pyNone)

/-- The value a direct call of `book` returns. -/
def bookValue (st : KunaState) (nonce : String) (market : String) :
    Except PyError RetVal :=
  (book st nonce market).map RetVal.response

/-- The message of the `TypeError` Python raises for `self.book()` with no
    `market` argument. -/
def bookMissingArgMsg : String :=
  "book() missing 1 required positional argument: 'market'"

/-- `KunaAPI.get_order_book(market)`: warns, then evaluates `self.book()` —
    with no argument, although `book` has a required positional parameter
    `market` — so the call raises `TypeError` before `book`'s body runs, and
    the caller's `market` argument is never forwarded. -/
def get_order_book (_st : KunaState) (_nonce : String) (_market : String) :
    Except PyError RetVal :=
  Except.error (PyError.typeError bookMissingArgMsg)

/-! ### Helper lemmas -/

lemma beBytes_length (k : Nat) : ∀ n, (beBytes k n).length = k := by
  induction k with
  | zero => intro n; rfl
  | succ k ih => intro n; simp [beBytes, ih]

lemma sha384Bytes_length (msg : List Nat) : (sha384Bytes msg).length = 48 := by
  simp [sha384Bytes, beBytes_length]

lemma hmacSha384_length (key msg : List Nat) : (hmacSha384 key msg).length = 48 := by
  simp [hmacSha384, sha384Bytes_length]

lemma hexChars_length (bytes : List Nat) :
    (bytes.foldr (fun b acc => hexByteChars b ++ acc) []).length = 2 * bytes.length := by
  induction bytes with
  | nil => rfl
  | cons b rest ih =>
      simp only [List.foldr_cons, List.length_append, ih]
      simp [hexByteChars]
      omega

lemma hexDigest_length (bytes : List Nat) : (hexDigest bytes).length = 2 * bytes.length := by
  simp [hexDigest, String.length, hexChars_length]

/-- `_generate_sign` on an ASCII payload and key: the digest is exactly the hex
    HMAC-SHA384 of the separator-free concatenation, keyed by the private key. -/
lemma generate_sign_ok (st : KunaState) (key uri body nonce : String)
    (hk : st.private_key = some key)
    (hp : allAscii (uri ++ nonce ++ body) = true)
    (hka : allAscii key = true) :
    generate_sign st uri body nonce =
      Except.ok (hexDigest (hmacSha384 (key.data.map Char.toNat)
        ((uri ++ nonce ++ body).data.map Char.toNat))) := by
  simp [generate_sign, asciiEncode, hp, hka, hk, Bind.bind, Except.bind]

lemma generate_sign_nonascii (st : KunaState) (uri body nonce : String)
    (hp : allAscii (uri ++ nonce ++ body) = false) :
    generate_sign st uri body nonce = Except.error PyError.unicodeEncodeError := by
  cases h : st.private_key <;>
    simp [generate_sign, asciiEncode, hp, h, Bind.bind, Except.bind]

/-- `_check_keys` returns normally on every input (the `error=True` branch
    constructs an `APIError` without raising it). -/
lemma check_keys_ok (st : KunaState) (b : Bool) : check_keys st b = Except.ok () := by
  unfold check_keys
  split <;> (try split) <;> rfl

/-! ### Claims -/

/-- C1: the claim says an authenticated call with a missing key raises
    `MissingCredentialsError` before any network I/O.  In the code the
    credential check never raises: `_check_keys(error=True)` constructs
    `APIError(KEYS_NEED_MESSAGE)` without a `raise` statement, so with both
    keys missing `auth_me` proceeds into `_generate_sign` and dies there with
    `AttributeError` (on `None.encode`), and with only the public key missing
    the signed request is built — `kun-apikey` header `None` — and handed to
    `urlopen`, i.e. network I/O is attempted.  Public operations do remain
    usable without credentials. -/
theorem c1_no_failfast_on_missing_credentials :
    check_keys ⟨none, none⟩ true = Except.ok () ∧
    check_keys ⟨none, some "secret"⟩ true = Except.ok () ∧
    auth_me ⟨none, none⟩ "1612345678901" =
      Except.error (PyError.attributeError noneEncodeMsg) ∧
    (PyError.attributeError noneEncodeMsg).pyClass = "AttributeError" ∧
    "AttributeError" ≠ "MissingCredentialsError" ∧
    auth_me ⟨none, some "secret"⟩ "1612345678901" =
      Except.ok ⟨"POST", "https://api.kuna.io/v3/auth/me",
        DEFAULT_HEADERS ++ [("kun-nonce", some "1612345678901"), ("kun-apikey", none),
          ("kun-signature", some "d4e44eb5c402eba5fd56c4e1520af67e29218a7c12f454dfe2423c083f193bdc213c2dde5b0cbde82bd294fb95789056")],
        "\x7b\x7d"⟩ ∧
    tickers ⟨none, none⟩ "1" SymbolsArg.noneArg =
      Except.ok ⟨"GET", "https://api.kuna.io/v3/tickers?symbols=ALL", DEFAULT_HEADERS, "\x7b\x7d"⟩ :=
  ⟨rfl, rfl, rfl, rfl, by decide, rfl, rfl⟩

/-- C2: the signature is the lowercase hex HMAC-SHA384 digest, keyed by the
    ASCII private key, of the ASCII bytes of `uri + nonce + json_body` with no
    separators; an empty mapping serializes to two braces; and on
    uri `/v3/auth/me`, nonce `1612345678901`, body the empty object, private
    key `secret`, the signature equals the 96-character reference digest. -/
theorem c2_signature_algorithm_and_test_vector :
    (∀ st key uri body nonce, st.private_key = some key →
      allAscii (uri ++ nonce ++ body) = true → allAscii key = true →
      generate_sign st uri body nonce =
        Except.ok (hexDigest (hmacSha384 (key.data.map Char.toNat)
          ((uri ++ nonce ++ body).data.map Char.toNat)))) ∧
    jsonDumps (Json.obj []) = "\x7b\x7d" ∧
    generate_sign ⟨some "pub", some "secret"⟩ "/v3/auth/me" "\x7b\x7d" "1612345678901" =
      Except.ok "d4e44eb5c402eba5fd56c4e1520af67e29218a7c12f454dfe2423c083f193bdc213c2dde5b0cbde82bd294fb95789056" :=
  ⟨fun st key uri body nonce hk hp hka => generate_sign_ok st key uri body nonce hk hp hka,
   rfl, rfl⟩

/-- C2 witness: the general conjunct applied at a concrete ASCII input. -/
theorem c2_witness :
    (KunaState.mk none (some "k")).private_key = some "k" ∧
    allAscii ("/va" ++ "9" ++ "\x7b\x7d") = true ∧
    allAscii "k" = true ∧
    generate_sign ⟨none, some "k"⟩ "/va" "\x7b\x7d" "9" =
      Except.ok (hexDigest (hmacSha384 ("k".data.map Char.toNat)
        (("/va" ++ "9" ++ "\x7b\x7d").data.map Char.toNat))) :=
  ⟨rfl, by decide, by decide,
   c2_signature_algorithm_and_test_vector.1 ⟨none, some "k"⟩ "k" "/va" "\x7b\x7d" "9"
     rfl (by decide) (by decide)⟩

/-- C3: on ASCII inputs with an ASCII private key the signing function is a
    pure function — equal inputs give equal digests — and the digest is a
    96-character hex string (SHA-384 gives 48 bytes, two hex characters each). -/
theorem c3_signature_deterministic_96_hex (st : KunaState) (key uri body nonce : String)
    (hk : st.private_key = some key)
    (hp : allAscii (uri ++ nonce ++ body) = true)
    (hka : allAscii key = true) :
    generate_sign st uri body nonce = generate_sign st uri body nonce ∧
    ∃ d, generate_sign st uri body nonce = Except.ok d ∧ d.length = 96 := by
  refine ⟨rfl, _, generate_sign_ok st key uri body nonce hk hp hka, ?_⟩
  rw [hexDigest_length, hmacSha384_length]

/-- C3 witness: the theorem at a concrete input. -/
theorem c3_witness :
    (KunaState.mk (some "p") (some "k")).private_key = some "k" ∧
    allAscii ("/u" ++ "5" ++ "\x7b\x7d") = true ∧
    allAscii "k" = true ∧
    (generate_sign ⟨some "p", some "k"⟩ "/u" "\x7b\x7d" "5" =
        generate_sign ⟨some "p", some "k"⟩ "/u" "\x7b\x7d" "5" ∧
      ∃ d, generate_sign ⟨some "p", some "k"⟩ "/u" "\x7b\x7d" "5" = Except.ok d ∧
        d.length = 96) :=
  ⟨rfl, by decide, by decide,
   c3_signature_deterministic_96_hex ⟨some "p", some "k"⟩ "k" "/u" "\x7b\x7d" "5"
     rfl (by decide) (by decide)⟩

/-- C4 counterexample: with an invalid order type the raised exception is the
    library's `APIError`, not an exception of class `InvalidArgumentError`
    (no such class exists in the code). -/
theorem c4_counterexample :
    auth_w_order_submit ⟨some "pub", some "secret"⟩ "1" "btcuah" "invalid_type"
        (Json.num 1) Json.null Json.null =
      Except.error (PyError.apiError (ErrMsg.ofStr (orderTypeErrorMsg "invalid_type"))) ∧
    (PyError.apiError (ErrMsg.ofStr (orderTypeErrorMsg "invalid_type"))).pyClass = "APIError" ∧
    "APIError" ≠ "InvalidArgumentError" :=
  ⟨rfl, rfl, by decide⟩

/-- C4 (amended): for every symbol, amount, price and stop price, an order type
    whose lowercase form is outside the allowed tuple makes
    `auth_w_order_submit` raise `APIError` (with the f-string message), and no
    HTTP request is dispatched. -/
theorem c4_invalid_order_type_raises (st : KunaState) (nonce symbol type : String)
    (amount price stop_price : Json)
    (h : available_types.contains (strLower type) = false) :
    auth_w_order_submit st nonce symbol type amount price stop_price =
      Except.error (PyError.apiError (ErrMsg.ofStr (orderTypeErrorMsg type))) := by
  unfold auth_w_order_submit
  split
  · rfl
  · next hcon => exact absurd h hcon

/-- C4 witness: the amended theorem at a concrete invalid type. -/
theorem c4_witness :
    available_types.contains (strLower "stop") = false ∧
    auth_w_order_submit ⟨none, none⟩ "7" "ethuah" "stop" Json.null Json.null Json.null =
      Except.error (PyError.apiError (ErrMsg.ofStr (orderTypeErrorMsg "stop"))) :=
  ⟨by decide,
   c4_invalid_order_type_raises ⟨none, none⟩ "7" "ethuah" "stop" Json.null Json.null Json.null
     (by decide)⟩

/-- C5 counterexample: a non-ASCII signing payload raises Python's built-in
    `UnicodeEncodeError`, not an exception of class `EncodingError` (no such
    class exists in the code). -/
theorem c5_counterexample :
    generate_sign ⟨some "pub", some "secret"⟩ ("/v3/" ++ ⟨[Char.ofNat 233]⟩) "\x7b\x7d" "1" =
      Except.error PyError.unicodeEncodeError ∧
    PyError.unicodeEncodeError.pyClass = "UnicodeEncodeError" ∧
    "UnicodeEncodeError" ≠ "EncodingError" :=
  ⟨rfl, rfl, by decide⟩

/-- C5 (amended): whenever the concatenated signing payload `uri + nonce +
    body` contains a character outside ASCII, signing fails with
    `UnicodeEncodeError` (from `payload.encode("ascii")`) and no signature is
    produced. -/
theorem c5_nonascii_payload_fails (st : KunaState) (uri body nonce : String)
    (hp : allAscii (uri ++ nonce ++ body) = false) :
    generate_sign st uri body nonce = Except.error PyError.unicodeEncodeError :=
  generate_sign_nonascii st uri body nonce hp

/-- C5 witness: the amended theorem at a concrete non-ASCII input. -/
theorem c5_witness :
    allAscii ("/q" ++ "2" ++ String.mk [Char.ofNat 960]) = false ∧
    generate_sign ⟨some "a", some "b"⟩ "/q" (String.mk [Char.ofNat 960]) "2" =
      Except.error PyError.unicodeEncodeError :=
  ⟨by decide,
   c5_nonascii_payload_fails ⟨some "a", some "b"⟩ "/q" (String.mk [Char.ofNat 960]) "2"
     (by decide)⟩

/-- C6 counterexample: a non-2xx response whose body is not JSON does not
    surface as an `APIError` carrying the raw text — `json.load` inside
    `APIError.__init__` raises `JSONDecodeError` instead. -/
theorem c6_counterexample :
    handleResponse (HttpOutcome.httpError 422 "oops") =
      Except.error PyError.jsonDecodeError ∧
    PyError.jsonDecodeError.pyClass = "JSONDecodeError" ∧
    "JSONDecodeError" ≠ "APIError" :=
  ⟨rfl, rfl, by decide⟩

/-- C6 (amended): on a non-2xx response whose body is a JSON object with a
    `messages` field, the raised `APIError`'s message is that field's value
    (in particular a 422 body with messages `["bad"]` gives message `["bad"]`);
    when the body fails to parse as JSON, the `JSONDecodeError` from
    constructing the `APIError` propagates instead, so no raw-text `APIError`
    is raised. -/
theorem c6_http_error_propagation :
    (∀ (code : Nat) (body : String) fields m,
      jsonLoads body = Except.ok (Json.obj fields) →
      dictGet fields "messages" = some m →
      handleResponse (HttpOutcome.httpError code body) =
        Except.error (PyError.apiError (ErrMsg.ofJson m))) ∧
    handleResponse (HttpOutcome.httpError 422 "\x7b\x22messages\x22: [\x22bad\x22]\x7d") =
      Except.error (PyError.apiError (ErrMsg.ofJson (Json.arr [Json.str "bad"]))) ∧
    (∀ (code : Nat) (body : String) e,
      jsonLoads body = Except.error e →
      handleResponse (HttpOutcome.httpError code body) = Except.error e) := by
  refine ⟨?_, rfl, ?_⟩
  · intro code body fields m hjl hdg
    simp [handleResponse, mkAPIError, hjl, hdg, Bind.bind, Except.bind]
  · intro code body e hjl
    simp [handleResponse, mkAPIError, hjl, Bind.bind, Except.bind]

/-- C6 witness: both general conjuncts at concrete inputs. -/
theorem c6_witness :
    jsonLoads "\x7b\x22messages\x22: \x22no\x22\x7d" =
      Except.ok (Json.obj [("messages", Json.str "no")]) ∧
    dictGet [("messages", Json.str "no")] "messages" = some (Json.str "no") ∧
    handleResponse (HttpOutcome.httpError 500 "\x7b\x22messages\x22: \x22no\x22\x7d") =
      Except.error (PyError.apiError (ErrMsg.ofJson (Json.str "no"))) ∧
    jsonLoads "nope" = Except.error PyError.jsonDecodeError ∧
    handleResponse (HttpOutcome.httpError 409 "nope") =
      Except.error PyError.jsonDecodeError :=
  ⟨rfl, rfl,
   c6_http_error_propagation.1 500 "\x7b\x22messages\x22: \x22no\x22\x7d"
     [("messages", Json.str "no")] (Json.str "no") rfl rfl,
   rfl,
   c6_http_error_propagation.2.2 409 "nope" PyError.jsonDecodeError rfl⟩

/-- C7 counterexample: `tickers(["a","b"])` does not send the query string
    `symbols=a,b`: `urlencode` percent-encodes the comma, so the dispatched
    URL carries `symbols=a%2Cb`. -/
theorem c7_counterexample :
    tickers ⟨none, none⟩ "1" (SymbolsArg.ofList ["a", "b"]) =
      Except.ok ⟨"GET", "https://api.kuna.io/v3/tickers?symbols=a%2Cb",
        DEFAULT_HEADERS, "\x7b\x7d"⟩ ∧
    "https://api.kuna.io/v3/tickers?symbols=a%2Cb" ≠
      "https://api.kuna.io/v3/tickers?symbols=a,b" :=
  ⟨rfl, by decide⟩

/-- C7 (amended): `tickers()` with no argument sends `symbols=ALL`; a list
    argument is comma-joined and then percent-encoded by `urlencode`
    (`["a","b"]` gives `symbols=a%2Cb`); a string argument is passed through
    `urlencode` (so an unreserved string like `btcuah` gives
    `symbols=btcuah`). -/
theorem c7_tickers_query_encoding :
    tickers ⟨none, none⟩ "1" SymbolsArg.noneArg =
      Except.ok ⟨"GET", "https://api.kuna.io/v3/tickers?symbols=ALL",
        DEFAULT_HEADERS, "\x7b\x7d"⟩ ∧
    String.intercalate "," ["a", "b"] = "a,b" ∧
    quotePlus "a,b" = "a%2Cb" ∧
    tickers ⟨none, none⟩ "1" (SymbolsArg.ofList ["a", "b"]) =
      Except.ok ⟨"GET", "https://api.kuna.io/v3/tickers?symbols=a%2Cb",
        DEFAULT_HEADERS, "\x7b\x7d"⟩ ∧
    tickers ⟨none, none⟩ "1" (SymbolsArg.ofStr "btcuah") =
      Except.ok ⟨"GET", "https://api.kuna.io/v3/tickers?symbols=btcuah",
        DEFAULT_HEADERS, "\x7b\x7d"⟩ :=
  ⟨rfl, rfl, rfl, rfl, rfl⟩

/-- C8 counterexample: with a type outside the allowed pair, `assets_history`
    raises the library's `APIError`, not an exception of class
    `InvalidArgumentError` (no such class exists in the code). -/
theorem c8_counterexample :
    assets_history ⟨some "p", some "s"⟩ "1" (some "invalid") =
      Except.error (PyError.apiError (ErrMsg.ofStr assetsHistoryTypeMsg)) ∧
    (PyError.apiError (ErrMsg.ofStr assetsHistoryTypeMsg)).pyClass = "APIError" ∧
    "APIError" ≠ "InvalidArgumentError" :=
  ⟨rfl, rfl, by decide⟩

/-- C8 (amended): for every string type whose lowercase form is neither
    `withdraws` nor `deposits`, `assets_history` raises `APIError` (and no
    request is dispatched). -/
theorem c8_invalid_assets_type_raises (st : KunaState) (nonce t : String)
    (h : ((["withdraws", "deposits"] : List String).contains (strLower t)) = false) :
    assets_history st nonce (some t) =
      Except.error (PyError.apiError (ErrMsg.ofStr assetsHistoryTypeMsg)) := by
  simp only [assets_history, Bind.bind, Except.bind]
  split
  · rfl
  · next hcon => exact absurd h hcon

/-- C8 witness: the amended theorem at a concrete invalid type. -/
theorem c8_witness :
    ((["withdraws", "deposits"] : List String).contains (strLower "all")) = false ∧
    assets_history ⟨some "x", some "y"⟩ "3" (some "all") =
      Except.error (PyError.apiError (ErrMsg.ofStr assetsHistoryTypeMsg)) :=
  ⟨by decide, c8_invalid_assets_type_raises ⟨some "x", some "y"⟩ "3" "all" (by decide)⟩

/-- C9: the claim says every deprecated alias is equivalent to its canonical
    method on the same arguments.  In the code every alias calls the canonical
    method as a bare statement and returns `None` instead of the result
    (`get_server_time` vs `timestamp` shown), and `get_order_book` drops the
    caller's `market` entirely — it evaluates `self.book()` with no argument,
    a `TypeError`, while `book(market)` succeeds. -/
theorem c9_alias_divergence :
    get_order_book ⟨some "p", some "s"⟩ "1" "btcuah" =
      Except.error (PyError.typeError bookMissingArgMsg) ∧
    bookValue ⟨some "p", some "s"⟩ "1" "btcuah" =
      Except.ok (RetVal.response ⟨"GET", "https://api.kuna.io/v3/book/btcuah",
        DEFAULT_HEADERS, "\x7b\x7d"⟩) ∧
    get_server_time ⟨some "p", some "s"⟩ "1" = Except.ok RetVal.pyNone ∧
    timestampValue ⟨some "p", some "s"⟩ "1" =
      Except.ok (RetVal.response ⟨"GET", "https://api.kuna.io/v3/timestamp",
        DEFAULT_HEADERS, "\x7b\x7d"⟩) ∧
    RetVal.pyNone ≠ RetVal.response ⟨"GET", "https://api.kuna.io/v3/timestamp",
      DEFAULT_HEADERS, "\x7b\x7d"⟩ :=
  ⟨rfl, rfl, rfl, rfl, by decide⟩

/-- C10: `assets_history()` with its default `type=None` always raises
    (`None.lower()` is an `AttributeError`) before the membership test
    completes, and no call of `assets_history` ever dispatches a request to
    the combined path `/auth/assets-history`: every successful call carries a
    longer, type-suffixed URL. -/
theorem c10_combined_assets_history_unreachable :
    (∀ st nonce, assets_history st nonce none =
      Except.error (PyError.attributeError noneLowerMsg)) ∧
    (∀ st nonce t req, assets_history st nonce t = Except.ok req →
      req.url ≠ "https://api.kuna.io/v3/auth/assets-history") := by
  constructor
  · intro st nonce; rfl
  · intro st nonce t req h hurl
    match t with
    | none => simp [assets_history, Bind.bind, Except.bind] at h
    | some s =>
      simp only [assets_history, Bind.bind, Except.bind] at h
      split at h
      · simp at h
      · split at h
        · next hcon hemp =>
            subst hemp
            exact hcon (by decide)
        · next hcon hemp =>
            simp only [request, check_keys_ok, List.isEmpty_nil, if_pos, Bind.bind, Except.bind,
              versionPath, apiEndpoint] at h
            split at h
            · simp at h
            · simp only [Except.ok.injEq] at h
              subst h
              simp only at hurl
              have hlen := congrArg String.length hurl
              simp only [String.length_append] at hlen
              have h1 : ("https://api.kuna.io" : String).length = 19 := by decide
              have h2 : ("/v3" : String).length = 3 := by decide
              have h3 : ("/auth/assets-history/" : String).length = 21 := by decide
              have h4 : ("https://api.kuna.io/v3/auth/assets-history" : String).length = 42 :=
                by decide
              rw [h1, h2, h3, h4] at hlen
              omega

/-- C10 witness: the `None` branch, and the implication at a concrete
    successful call (`type="deposits"`). -/
theorem c10_witness :
    assets_history ⟨none, none⟩ "1" none =
      Except.error (PyError.attributeError noneLowerMsg) ∧
    (HttpRequest.mk "POST" "https://api.kuna.io/v3/auth/assets-history/deposits"
        (DEFAULT_HEADERS ++ [("kun-nonce", some "1612345678901"), ("kun-apikey", some "pub"),
          ("kun-signature", some "32a7445bdc68efc21ac31fa91378007103be862dac56c150e9b0a5bfc0535a0e6f96825ecf08e3c8fb52d74d26a52f2c")])
        "\x7b\x7d").url ≠ "https://api.kuna.io/v3/auth/assets-history" :=
  ⟨c10_combined_assets_history_unreachable.1 ⟨none, none⟩ "1",
   c10_combined_assets_history_unreachable.2 ⟨some "pub", some "secret"⟩ "1612345678901"
     (some "deposits") _ rfl⟩

end Kuna
